import Mathlib

/-!
Shallow embedding of the `presence` Go library (package `nullable` /
`presence`): the generic tri-state container `Of[T]`, its state
transitions, the JSON marshal/unmarshal codec hooks, the SQL
scan/value conversions and the functional combinators, together with
theorems settling the specification claims about them.

Go pointers `*T` are embedded as `Option T` (a nil pointer is `none`);
Go methods with a pointer receiver that mutate the receiver are
embedded as functions returning the new state, paired with an
`Option String` error when the method also returns an `error`.
The process-wide configuration (config.go) is passed explicitly as a
`Config` value read at call time, mirroring that the Go code reads the
defaults at each call under a lock.
-/

namespace Presence

/-- Marshal-unset policy from config.go: `UnsetSkip` omits unset fields
(via IsZero/omitempty), `UnsetNull` marshals them as null. -/
inductive MarshalUnsetBehavior where
  | UnsetSkip
  | UnsetNull
deriving DecidableEq, Repr

/-- Scan-null policy from config.go: `ScanNullAsNull` turns a SQL NULL into
the explicit Null state, `ScanNullAsUnset` into the Unset state. -/
inductive ScanNullBehavior where
  | ScanNullAsNull
  | ScanNullAsUnset
deriving DecidableEq, Repr

/-- The process-wide defaults held in config.go (defaultMarshalUnset,
defaultScanNull). The Go code reads them through GetDefaultMarshalUnset /
GetDefaultScanNull at each call; here the current defaults are passed
explicitly wherever those getters are called. -/
structure Config where
  defaultMarshalUnset : MarshalUnsetBehavior
  defaultScanNull : ScanNullBehavior
deriving DecidableEq, Repr

/-- The Go default configuration: `UnsetSkip` and `ScanNullAsNull`. -/
def cfgGoDefaults : Config :=
  { defaultMarshalUnset := .UnsetSkip, defaultScanNull := .ScanNullAsNull }

/-- The container `Of[T]` (of.go): `val *T` is `Option T`, plus the
`isSet` flag and the two optional per-instance policy overrides. -/
structure Of (T : Type) where
  val : Option T
  isSet : Bool
  marshalUnset : Option MarshalUnsetBehavior
  scanNull : Option ScanNullBehavior
deriving DecidableEq, Repr

/-- The Go zero value `Of[T]{}`: all fields zero (Unset, no overrides). -/
def Of.zero {T : Type} : Of T :=
  { val := none, isSet := false, marshalUnset := none, scanNull := none }

/-- `IsNull` (of.go): true iff the receiver is non-nil, `val == nil` and
`isSet`. Embedded for a non-nil receiver. -/
def Of.IsNull {T : Type} (n : Of T) : Bool :=
  n.val.isNone && n.isSet

/-- `IsUnset` (of.go): true iff the receiver is nil or `!isSet`.
Embedded for a non-nil receiver. -/
def Of.IsUnset {T : Type} (n : Of T) : Bool :=
  !n.isSet

/-- `IsSet` (of.go): true iff the receiver is non-nil and `isSet`. -/
def Of.IsSet {T : Type} (n : Of T) : Bool :=
  n.isSet

/-- `GetValue` (of.go): returns the `val` pointer (here the `Option`). -/
def Of.GetValue {T : Type} (n : Of T) : Option T :=
  n.val

/-- Modelled from the spec: the implementation of `IsValue` is not under
src (only its declaration in the NullableI interface and its tests are).
Per the spec, is_value holds iff is_set is true and a value is present;
the tests confirm: true on a value, false on null, unset and nil receiver. -/
def Of.IsValue {T : Type} (n : Of T) : Bool :=
  n.isSet && n.val.isSome

/-- `SetValue` (of.go): sets `isSet = true` and `val = &b`. -/
def Of.SetValue {T : Type} (n : Of T) (b : T) : Of T :=
  { n with isSet := true, val := some b }

/-- `SetNull` (of.go): sets `isSet = true` and `val = nil`. -/
def Of.SetNull {T : Type} (n : Of T) : Of T :=
  { n with isSet := true, val := none }

/-- `Unset` (of.go): sets `isSet = false` and `val = nil`. -/
def Of.Unset {T : Type} (n : Of T) : Of T :=
  { n with isSet := false, val := none }

/-- `SetValueP` (of.go): non-nil ref calls `SetValue(*ref)`, nil ref
calls `SetNull()`. -/
def Of.SetValueP {T : Type} (n : Of T) (ref : Option T) : Of T :=
  match ref with
  | some v => n.SetValue v
  | none => n.SetNull

/-- `SetMarshalUnset` (of.go): stores the per-instance override. -/
def Of.SetMarshalUnset {T : Type} (n : Of T) (b : MarshalUnsetBehavior) : Of T :=
  { n with marshalUnset := some b }

/-- `GetMarshalUnset` (of.go): the per-instance override when present,
otherwise the process default as read now. -/
def Of.GetMarshalUnset {T : Type} (n : Of T) (cfg : Config) : MarshalUnsetBehavior :=
  n.marshalUnset.getD cfg.defaultMarshalUnset

/-- `SetScanNull` (of.go): stores the per-instance override. -/
def Of.SetScanNull {T : Type} (n : Of T) (b : ScanNullBehavior) : Of T :=
  { n with scanNull := some b }

/-- `GetScanNull` (of.go): the per-instance override when present,
otherwise the process default as read now. -/
def Of.GetScanNull {T : Type} (n : Of T) (cfg : Config) : ScanNullBehavior :=
  n.scanNull.getD cfg.defaultScanNull

/-- `FromValue` (nullable.go): zero container then `SetValue(b)`. -/
def FromValue {T : Type} (b : T) : Of T :=
  (Of.zero).SetValue b

/-- `Null[T]()` (nullable.go): zero container then `SetNull()`. -/
def Null (T : Type) : Of T :=
  (Of.zero).SetNull

/-- The Unset row of the spec state table: `is_set` false and no value. -/
def Of.inUnsetState {T : Type} (n : Of T) : Prop :=
  n.isSet = false ∧ n.val = none

/-- The Null row of the spec state table: `is_set` true and no value. -/
def Of.inNullState {T : Type} (n : Of T) : Prop :=
  n.isSet = true ∧ n.val = none

/-- The Value row of the spec state table: `is_set` true and a value. -/
def Of.inValueState {T : Type} (n : Of T) : Prop :=
  n.isSet = true ∧ n.val.isSome = true

/-- A JSON codec for the element type T, standing for the external
`encoding/json` calls `json.Marshal` / `json.Unmarshal` at type T.
`dec` returns `none` when `json.Unmarshal` would return an error
(malformed JSON, type mismatch, numeric overflow for a sized integer);
on a decode error the Go call leaves a scalar target unchanged. -/
structure Codec (T : Type) where
  enc : T → String
  dec : String → Option T

/-- Modelled from the spec: the helper `marshalJSON` called by
`Of[T].MarshalJSON` for the Value branch is not under src. Per the spec
(a container in Value state serializes exactly as its wrapped value
would serialize on its own) and the repo docs (it calls json.Marshal on
GetValue), it encodes the wrapped value directly; a nil pointer would
encode as null, unreachable under the callers guard. -/
def marshalJSONValue {T : Type} (c : Codec T) (n : Of T) : Except String String :=
  match n.val with
  | some v => .ok (c.enc v)
  | none => .ok "null"

/-- `MarshalJSON` (of.go): Unset or Null marshals to the literal null,
otherwise the wrapped value is encoded. -/
def Of.MarshalJSON {T : Type} (c : Codec T) (n : Of T) : Except String String :=
  if n.IsUnset || n.IsNull then .ok "null"
  else marshalJSONValue c n

/-- `UnmarshalJSON` (of.go), embedded as new state plus optional error.
A nil `data` slice is `none`. Mirrors the source exactly: nil data or the
literal null calls SetNull; otherwise, when `val` is nil a fresh zero T
is allocated into `val` BEFORE decoding; a decode error is returned with
that allocation left in place (no rollback); on success the decoded
value is stored and `isSet` becomes true. -/
def Of.UnmarshalJSON {T : Type} [Inhabited T] (c : Codec T) (n : Of T)
    (data : Option String) : Of T × Option String :=
  match data with
  | none => (n.SetNull, none)
  | some s =>
    if s = "null" then (n.SetNull, none)
    else
      let n1 : Of T := if n.val.isNone then { n with val := some default } else n
      match c.dec s with
      | none => (n1, some "nullable Unmarshal Error")
      | some v => ({ n1 with val := some v, isSet := true }, none)

/-- `handleScanNull` (nullable.go): on a driver NULL, Unset when the
effective scan-null policy is ScanNullAsUnset, otherwise SetNull. -/
def Of.handleScanNull {T : Type} (n : Of T) (cfg : Config) : Of T :=
  if n.GetScanNull cfg = .ScanNullAsUnset then n.Unset else n.SetNull

/-- `scanString` (nullable.go) on a driver NULL or string payload:
sql.NullString.Scan of nil gives Valid=false (handleScanNull), of a
string gives Valid=true (SetValue). Conversion of other driver types to
string is outside the claims and not modelled. -/
def Of.scanString (n : Of String) (cfg : Config) (v : Option String) :
    Except String (Of String) :=
  match v with
  | none => .ok (n.handleScanNull cfg)
  | some s => .ok (n.SetValue s)

/-- `scanUUID` (nullable.go): NULL goes to handleScanNull; a string is
parsed with uuid.Parse (abstracted as `uuidParse`), a parse failure is
an error, success is SetValue. -/
def Of.scanUUID {U : Type} (uuidParse : String → Option U) (n : Of U)
    (cfg : Config) (v : Option String) : Except String (Of U) :=
  match v with
  | none => .ok (n.handleScanNull cfg)
  | some s =>
    match uuidParse s with
    | none => .error "UUID parsing failed"
    | some u => .ok (n.SetValue u)

/-- The four arms of the type switch in `scanInt` (nullable.go):
int16 and int32 use the width-matching sql.NullInt16/NullInt32
intermediates; int and int64 use sql.NullInt64 (an int64 driver value
always fits, and the int conversion is the identity on 64-bit). -/
inductive IntWidth where
  | w16
  | w32
  | wInt
  | w64
deriving DecidableEq, Repr

/-- Range accepted by the sql.NullIntXX intermediate of each arm. -/
def IntWidth.inRange (w : IntWidth) (i : Int) : Bool :=
  match w with
  | .w16 => -32768 ≤ i && i ≤ 32767
  | .w32 => -2147483648 ≤ i && i ≤ 2147483647
  | .wInt => true
  | .w64 => true

/-- Models database/sql NullIntXX.Scan on a driver integer (int64) or
NULL: nil gives Valid=false; an integer is range-checked by
convertAssign and out-of-range values give an error, in-range values
give Valid=true. String payloads are outside the claims. -/
def nullIntScan (w : IntWidth) (v : Option Int) : Except String (Option Int) :=
  match v with
  | none => .ok none
  | some i => if w.inRange i then .ok (some i) else .error "value out of range"

/-- `scanInt` (nullable.go): each arm scans through its sql.NullIntXX
intermediate, propagates its error, and on success does SetValue when
Valid and handleScanNull when not. -/
def Of.scanInt (n : Of Int) (w : IntWidth) (cfg : Config) (v : Option Int) :
    Except String (Of Int) :=
  match nullIntScan w v with
  | .error e => .error e
  | .ok none => .ok (n.handleScanNull cfg)
  | .ok (some i) => .ok (n.SetValue i)

/-- `scanFloat` (nullable.go): sql.NullFloat64.Scan of nil gives
Valid=false (handleScanNull), of a float64 payload gives Valid=true
(SetValue). The float payload is kept abstract as F; numeric
conversions of other driver types are outside the claims. -/
def Of.scanFloat {F : Type} (n : Of F) (cfg : Config) (v : Option F) :
    Except String (Of F) :=
  match v with
  | none => .ok (n.handleScanNull cfg)
  | some f => .ok (n.SetValue f)

/-- `scanBool` (nullable.go): sql.NullBool.Scan of nil gives Valid=false
(handleScanNull), of a bool gives Valid=true (SetValue). -/
def Of.scanBool (n : Of Bool) (cfg : Config) (v : Option Bool) :
    Except String (Of Bool) :=
  match v with
  | none => .ok (n.handleScanNull cfg)
  | some b => .ok (n.SetValue b)

/-- A time.Time instant, abstracted to its unix nanoseconds. -/
structure GoTime where
  unixNanos : Int
deriving DecidableEq, Repr

/-- The sql.NullTime intermediate: `new(sql.NullTime)` starts with
`Valid = false`. -/
structure NullTime where
  time : GoTime
  valid : Bool
deriving DecidableEq, Repr

/-- The driver values reaching `scanTime` (nullable.go): nil, a string,
a time.Time, or anything else (rejected by the default case). -/
inductive TimeScanInput where
  | nullInput
  | str (s : String)
  | time (t : GoTime)
  | other
deriving DecidableEq, Repr

/-- `scanTime` (nullable.go), faithful to the source: nil input goes to
handleScanNull. A string is parsed with `time.Parse(t, t)` (the input is
used as both layout and value; abstracted as `parse`): a parse error is
returned, but on success only the `Time` field of the fresh
sql.NullTime is assigned — `Valid` is never set — so the final
`if null.Valid` check sends even a successfully parsed string to
handleScanNull. A time.Time input goes through sql.NullTime.Scan, which
sets Valid=true, hence SetValue. Any other type is an error. -/
def Of.scanTime (parse : String → Option GoTime) (n : Of GoTime)
    (cfg : Config) (v : TimeScanInput) : Except String (Of GoTime) :=
  match v with
  | .nullInput => .ok (n.handleScanNull cfg)
  | .str s =>
    match parse s with
    | none => .error "time parse error"
    | some t =>
      let nt : NullTime := { time := t, valid := false }
      if nt.valid then .ok (n.SetValue nt.time) else .ok (n.handleScanNull cfg)
  | .time t =>
    let nt : NullTime := { time := t, valid := true }
    if nt.valid then .ok (n.SetValue nt.time) else .ok (n.handleScanNull cfg)
  | .other => .error "cannot parse type to time"

/-- `scanJSON` (nullable.go) for an element type with no custom
sql.Scanner: sql.NullString.Scan of nil gives Valid=false
(handleScanNull); a valid payload is JSON-decoded into a fresh T, a
decode error is returned, success is SetValue. -/
def Of.scanJSON {T : Type} (dec : String → Option T) (n : Of T)
    (cfg : Config) (v : Option String) : Except String (Of T) :=
  match v with
  | none => .ok (n.handleScanNull cfg)
  | some s =>
    match dec s with
    | none => .error "nullable database unmarshaling json"
    | some value => .ok (n.SetValue value)

/-- The outbound driver.Value produced by `Of[T].Value` for a native
scalar element type: the storage NULL or the unwrapped scalar itself. -/
inductive DriverValue (T : Type) where
  | null
  | scalar (v : T)
deriving DecidableEq, Repr

/-- `Value` (of.go) instantiated at a native scalar element type
(string, bool, the integer widths, float64, time.Time, uuid.UUID):
`if n.val == nil` return (nil, nil); otherwise the type switch matches
the native-scalar case and returns `*n.val` directly, with no
intermediate encoding. The JSON branch applies only to the JSON element
type and is not needed by the claims. -/
def Of.Value {T : Type} (n : Of T) : Except String (DriverValue T) :=
  match n.val with
  | none => .ok .null
  | some v => .ok (.scalar v)

/-- `Filter` (nullable.go): Unset gives the zero container, Null gives
Null, a value passing the predicate is returned unchanged, a failing
value gives Null. The `none` arm of the match is unreachable: when the
container is neither Unset nor Null, `val` is some value (the source
dereferences `*n.val` there). -/
def Filter {T : Type} (n : Of T) (predicate : T → Bool) : Of T :=
  if n.IsUnset then Of.zero
  else if n.IsNull then Null T
  else
    match n.val with
    | some v => if predicate v then n else Null T
    | none => Null T

/-- `IsZero` (of.go): true iff `IsUnset()` and the effective
marshal-unset policy is UnsetSkip. -/
def Of.IsZero {T : Type} (n : Of T) (cfg : Config) : Bool :=
  n.IsUnset && (n.GetMarshalUnset cfg == .UnsetSkip)

/-- The numeric value of a decimal digit character, or none. -/
def decDigit (c : Char) : Option Nat :=
  if c.isDigit then some (c.toNat - 48) else none

/-- Accumulating decimal parser over a list of characters. -/
def decNatFrom (acc : Nat) : List Char → Option Nat
  | [] => some acc
  | c :: cs =>
    match decDigit c with
    | none => none
    | some d => decNatFrom (acc * 10 + d) cs

/-- Decimal integer parser: an optional leading minus sign followed by
at least one digit; anything else fails. -/
def decInt (s : String) : Option Int :=
  match s.data with
  | [] => none
  | '-' :: [] => none
  | '-' :: c :: cs => (decNatFrom 0 (c :: cs)).map (fun v => -(v : Int))
  | cs => (decNatFrom 0 cs).map (fun v => (v : Int))

/-- A concrete model of the json codec at the Go type int, used to
evaluate the claims on concrete inputs: encoding is decimal notation,
decoding is decimal parsing (json.Unmarshal into an int errors on any
payload that is not an integer literal). -/
def intCodec : Codec Int :=
  { enc := fun i => toString i, dec := decInt }

/-- Stand-in for the Go call time.Parse(s, s) made by scanTime (the
input string is used as both layout and value), restricted to the
reference-format string on which that call succeeds and returns the
reference instant; all other strings are out of scope for the claim. -/
def timeParseRefDate (s : String) : Option GoTime :=
  if s = "2006-01-02" then some { unixNanos := 1136160000000000000 } else none

/-- The predicate of spec Scenario E. -/
def isPositive (v : Int) : Bool :=
  decide (0 < v)

/-- State exclusivity holds unconditionally for every container value,
even for the corrupted states reachable through a failed UnmarshalJSON:
exactly one of IsUnset, IsNull, IsValue is true. -/
theorem stateExclusivity {T : Type} (n : Of T) :
    (n.IsUnset = true ∧ n.IsNull = false ∧ n.IsValue = false) ∨
    (n.IsUnset = false ∧ n.IsNull = true ∧ n.IsValue = false) ∨
    (n.IsUnset = false ∧ n.IsNull = false ∧ n.IsValue = true) := by
  obtain ⟨nval, ns, nmu, nsn⟩ := n
  cases ns <;> cases nval <;>
    simp [Of.IsUnset, Of.IsNull, Of.IsValue]

/-- Claim C1: the specification says a failed UnmarshalJSON surfaces a
decoding error and leaves the container state unchanged. The error is
surfaced, but the state is mutated: the code allocates a fresh zero
value into val before decoding and never rolls it back, so unmarshaling
the malformed payload "x" into a Null Of[int] container returns an
error while the container, observably Null before the call, afterwards
reads as a Value holding the zero value. -/
theorem C1_failed_unmarshal_mutates_null_container :
    (("x" : String) ≠ "null") ∧
    ((Null Int).IsNull = true) ∧
    ((Null Int).IsValue = false) ∧
    ((Null Int).GetValue = none) ∧
    (((Null Int).UnmarshalJSON intCodec (some "x")).2.isSome = true) ∧
    ((((Null Int).UnmarshalJSON intCodec (some "x")).1).IsNull = false) ∧
    ((((Null Int).UnmarshalJSON intCodec (some "x")).1).IsValue = true) ∧
    ((((Null Int).UnmarshalJSON intCodec (some "x")).1).GetValue = some 0) := by
  decide

/-- Claim C2: the invariant that isSet false implies val nil fails on a
reachable container: a fresh (Unset) Of[int] fed the malformed payload
"x" through UnmarshalJSON gets a decoding error but is left with isSet
still false and val pointing at a freshly allocated zero value. (The
exclusivity half of the claim does hold for every container value.) -/
theorem C2_invariant_fails_after_failed_unmarshal :
    (((Of.zero : Of Int).UnmarshalJSON intCodec (some "x")).2.isSome = true) ∧
    (((Of.zero : Of Int).UnmarshalJSON intCodec (some "x")).1.isSet = false) ∧
    (((Of.zero : Of Int).UnmarshalJSON intCodec (some "x")).1.val = some 0) := by
  decide

/-- Claim C3: JSON round-trip. For any element type with a faithful
codec at v (decoding inverts encoding, and v does not encode to the
literal null), marshaling FromValue v yields the encoding of v, and
unmarshaling that encoding into a fresh container succeeds and yields a
Value container holding v; marshaling Null yields the literal null, and
unmarshaling the literal null into a fresh container yields Null. -/
theorem C3_marshal_unmarshal_roundtrip {T : Type} [Inhabited T]
    (c : Codec T) (v : T)
    (hdec : c.dec (c.enc v) = some v) (hnn : c.enc v ≠ "null") :
    ((FromValue v).MarshalJSON c = .ok (c.enc v)) ∧
    (((Of.zero : Of T).UnmarshalJSON c (some (c.enc v))).2 = none) ∧
    (((Of.zero : Of T).UnmarshalJSON c (some (c.enc v))).1.IsValue = true) ∧
    (((Of.zero : Of T).UnmarshalJSON c (some (c.enc v))).1.GetValue = some v) ∧
    ((Null T).MarshalJSON c = .ok "null") ∧
    (((Of.zero : Of T).UnmarshalJSON c (some "null")).2 = none) ∧
    (((Of.zero : Of T).UnmarshalJSON c (some "null")).1.IsNull = true) := by
  refine ⟨?_, ?_, ?_, ?_, ?_, ?_, ?_⟩ <;>
    simp [Of.MarshalJSON, Of.UnmarshalJSON, FromValue, Null, Of.zero,
      Of.SetValue, Of.SetNull, Of.IsUnset, Of.IsNull, Of.IsValue,
      Of.GetValue, marshalJSONValue, hdec, hnn]

/-- Closed witness for claim C3 at the element type int with v = 42 and
the concrete decimal codec. -/
theorem C3_marshal_unmarshal_roundtrip_witness :
    ((FromValue (42 : Int)).MarshalJSON intCodec = .ok (intCodec.enc 42)) ∧
    (((Of.zero : Of Int).UnmarshalJSON intCodec (some (intCodec.enc 42))).2 = none) ∧
    (((Of.zero : Of Int).UnmarshalJSON intCodec (some (intCodec.enc 42))).1.IsValue = true) ∧
    (((Of.zero : Of Int).UnmarshalJSON intCodec (some (intCodec.enc 42))).1.GetValue = some 42) ∧
    ((Null Int).MarshalJSON intCodec = .ok "null") ∧
    (((Of.zero : Of Int).UnmarshalJSON intCodec (some "null")).2 = none) ∧
    (((Of.zero : Of Int).UnmarshalJSON intCodec (some "null")).1.IsNull = true) :=
  C3_marshal_unmarshal_roundtrip intCodec 42 (by decide) (by decide)

/-- Claim C4: the specification says a string input that parses as a
timestamp yields Value holding the parsed time, and that a non-NULL
scanned input never yields Null or Unset. The code violates both: the
string branch of scanTime parses successfully but never sets the Valid
flag of the fresh sql.NullTime, so the parsed instant is discarded and
the container goes through handleScanNull to Null (under the default
policy) instead of to Value. The time.Time branch does yield Value. -/
theorem C4_string_scan_discards_parsed_time :
    (timeParseRefDate "2006-01-02" = some { unixNanos := 1136160000000000000 }) ∧
    ((Of.zero : Of GoTime).scanTime timeParseRefDate cfgGoDefaults
        (.str "2006-01-02") = .ok ((Of.zero : Of GoTime).SetNull)) ∧
    (((Of.zero : Of GoTime).SetNull).IsValue = false) ∧
    (((Of.zero : Of GoTime).SetNull).IsNull = true) ∧
    ((Of.zero : Of GoTime).scanTime timeParseRefDate cfgGoDefaults
        (.time { unixNanos := 7 }) =
      .ok ((Of.zero : Of GoTime).SetValue { unixNanos := 7 })) := by
  exact ⟨rfl, rfl, by decide, by decide, rfl⟩

/-- Claim C5: on a driver NULL, every scan path calls handleScanNull,
which transitions to Unset exactly when the effective scan-null policy
is ScanNullAsUnset and to Null otherwise; the effective policy is the
per-container override when one is set, and otherwise whatever the
process default is at the moment of the scan (containers built without
an override, by zero construction, FromValue or Null, follow the
current default, so a later change of the default affects them). -/
theorem C5_scan_null_dispatch {T U F : Type} (cfg : Config) (n : Of T)
    (nS : Of String) (nU : Of U) (nI : Of Int) (nF : Of F) (nB : Of Bool)
    (nG : Of GoTime) (uuidParse : String → Option U)
    (jdec : String → Option T) (parse : String → Option GoTime)
    (w : IntWidth) (b : ScanNullBehavior) (v : T) :
    (nS.scanString cfg none = .ok (nS.handleScanNull cfg)) ∧
    (Of.scanUUID uuidParse nU cfg none = .ok (nU.handleScanNull cfg)) ∧
    (nI.scanInt w cfg none = .ok (nI.handleScanNull cfg)) ∧
    (nF.scanFloat cfg none = .ok (nF.handleScanNull cfg)) ∧
    (nB.scanBool cfg none = .ok (nB.handleScanNull cfg)) ∧
    (Of.scanTime parse nG cfg .nullInput = .ok (nG.handleScanNull cfg)) ∧
    (Of.scanJSON jdec n cfg none = .ok (n.handleScanNull cfg)) ∧
    ((n.handleScanNull cfg).IsUnset = (n.GetScanNull cfg == .ScanNullAsUnset)) ∧
    ((n.handleScanNull cfg).IsNull = !(n.GetScanNull cfg == .ScanNullAsUnset)) ∧
    ((n.handleScanNull cfg).IsValue = false) ∧
    ((n.SetScanNull b).GetScanNull cfg = b) ∧
    ((Of.zero : Of T).GetScanNull cfg = cfg.defaultScanNull) ∧
    ((FromValue v).GetScanNull cfg = cfg.defaultScanNull) ∧
    ((Null T).GetScanNull cfg = cfg.defaultScanNull) := by
  refine ⟨rfl, rfl, rfl, rfl, rfl, rfl, rfl, ?_, ?_, ?_, rfl, rfl, rfl, rfl⟩ <;>
    cases h : n.GetScanNull cfg <;>
      simp [Of.handleScanNull, h, Of.Unset, Of.SetNull, Of.IsUnset,
        Of.IsNull, Of.IsValue]

/-- Claim C6: IsZero is true exactly when the container is Unset and
the effective marshal-unset policy is UnsetSkip; an Unset container is
zero under UnsetSkip and not under UnsetNull, and a Null or Value
container is never zero, whatever the policy. -/
theorem C6_iszero_omission {T : Type} (cfg : Config) (n : Of T) :
    (n.IsZero cfg = (n.IsUnset && (n.GetMarshalUnset cfg == .UnsetSkip))) ∧
    (n.IsUnset = true → n.GetMarshalUnset cfg = .UnsetSkip → n.IsZero cfg = true) ∧
    (n.IsUnset = true → n.GetMarshalUnset cfg = .UnsetNull → n.IsZero cfg = false) ∧
    (n.IsNull = true → n.IsZero cfg = false) ∧
    (n.IsValue = true → n.IsZero cfg = false) := by
  obtain ⟨nval, ns, nmu, nsn⟩ := n
  refine ⟨rfl, ?_, ?_, ?_, ?_⟩
  · intro h1 h2
    simp [Of.IsZero, h1, h2]
  · intro h1 h2
    simp [Of.IsZero, h1, h2]
  · intro h
    cases ns <;> simp_all [Of.IsNull, Of.IsZero, Of.IsUnset]
  · intro h
    cases ns <;> simp_all [Of.IsValue, Of.IsZero, Of.IsUnset]

/-- Closed witness for claim C6: an Unset container is zero under the
UnsetSkip default and not under an UnsetNull default; Null and Value
containers are not zero. -/
theorem C6_iszero_omission_witness :
    ((Of.zero : Of Int).IsZero cfgGoDefaults = true) ∧
    ((Of.zero : Of Int).IsZero
      { defaultMarshalUnset := .UnsetNull, defaultScanNull := .ScanNullAsNull } = false) ∧
    ((Null Int).IsZero cfgGoDefaults = false) ∧
    ((FromValue (7 : Int)).IsZero cfgGoDefaults = false) :=
  ⟨(C6_iszero_omission cfgGoDefaults Of.zero).2.1 (by decide) (by decide),
   (C6_iszero_omission
      { defaultMarshalUnset := .UnsetNull, defaultScanNull := .ScanNullAsNull }
      Of.zero).2.2.1 (by decide) (by decide),
   (C6_iszero_omission cfgGoDefaults (Null Int)).2.2.2.1 (by decide),
   (C6_iszero_omission cfgGoDefaults (FromValue 7)).2.2.2.2 (by decide)⟩

/-- Claim C7: the outbound conversion of a container in the Null state
and of one in the Unset state is the storage NULL (with no error), so
the two are indistinguishable at this boundary; for a container holding
a native scalar value the unwrapped value is returned directly. -/
theorem C7_value_collapses_null_and_unset {T : Type} (n : Of T) (v : T) :
    (n.inNullState → n.Value = .ok .null) ∧
    (n.inUnsetState → n.Value = .ok .null) ∧
    (n.val = some v → n.Value = .ok (.scalar v)) ∧
    ((FromValue v).Value = .ok (.scalar v)) ∧
    ((Null T).Value = .ok .null) ∧
    ((Of.zero : Of T).Value = .ok .null) := by
  refine ⟨?_, ?_, ?_, rfl, rfl, rfl⟩
  · rintro ⟨-, h⟩
    simp [Of.Value, h]
  · rintro ⟨-, h⟩
    simp [Of.Value, h]
  · intro h
    simp [Of.Value, h]

/-- Closed witness for claim C7 at the element type int. -/
theorem C7_value_collapses_null_and_unset_witness :
    ((Null Int).Value = .ok .null) ∧
    ((Of.zero : Of Int).Value = .ok .null) ∧
    ((FromValue (5 : Int)).Value = .ok (.scalar 5)) :=
  ⟨(C7_value_collapses_null_and_unset (Null Int) 0).1 ⟨rfl, rfl⟩,
   (C7_value_collapses_null_and_unset (Of.zero : Of Int) 0).2.1 ⟨rfl, rfl⟩,
   (C7_value_collapses_null_and_unset (FromValue (5 : Int)) 5).2.2.1 rfl⟩

/-- Claim C8 counterexample: the input -32768 has magnitude 32768,
which lies outside plus or minus 32767, yet scanning it into an int16
container succeeds with Value(-32768) instead of failing: the
sql.NullInt16 intermediate accepts the whole int16 range. -/
theorem C8_counterexample_minus_32768 :
    (32767 < Int.natAbs (-32768)) ∧
    ((Of.zero : Of Int).scanInt .w16 cfgGoDefaults (some (-32768)) =
      .ok ((Of.zero : Of Int).SetValue (-32768))) ∧
    (((Of.zero : Of Int).SetValue (-32768)).IsValue = true) := by
  exact ⟨by decide, rfl, by decide⟩

/-- Claim C8 as amended: scanning a non-NULL numeric into an
int16-typed container uses the width-correct sql.NullInt16
intermediate: any input outside the int16 range -32768..32767 (for
example 100000) makes Scan fail with a range-violation error, while any
in-range input yields IsValue true holding that value. -/
theorem C8_scanInt16_range (cfg : Config) (n : Of Int) (i : Int) :
    (i < -32768 ∨ 32767 < i →
      n.scanInt .w16 cfg (some i) = .error "value out of range") ∧
    (-32768 ≤ i → i ≤ 32767 →
      n.scanInt .w16 cfg (some i) = .ok (n.SetValue i) ∧
      (n.SetValue i).IsValue = true ∧ (n.SetValue i).GetValue = some i) := by
  constructor
  · intro h
    have hb : IntWidth.inRange .w16 i = false := by
      simp only [IntWidth.inRange, Bool.and_eq_false_iff, decide_eq_false_iff_not,
        not_le]
      rcases h with h | h
      · exact Or.inl (by omega)
      · exact Or.inr (by omega)
    simp [Of.scanInt, nullIntScan, hb]
  · intro h1 h2
    have hb : IntWidth.inRange .w16 i = true := by
      simp only [IntWidth.inRange, Bool.and_eq_true, decide_eq_true_eq]
      exact ⟨h1, h2⟩
    refine ⟨by simp [Of.scanInt, nullIntScan, hb],
      by simp [Of.SetValue, Of.IsValue], rfl⟩

/-- Closed witness for the amended claim C8: 100000 is rejected with
the range error, and the in-range 12345 is stored as a value. -/
theorem C8_scanInt16_range_witness :
    ((Of.zero : Of Int).scanInt .w16 cfgGoDefaults (some 100000) =
      .error "value out of range") ∧
    ((Of.zero : Of Int).scanInt .w16 cfgGoDefaults (some 12345) =
        .ok ((Of.zero : Of Int).SetValue 12345) ∧
      ((Of.zero : Of Int).SetValue 12345).IsValue = true ∧
      ((Of.zero : Of Int).SetValue 12345).GetValue = some 12345) :=
  ⟨(C8_scanInt16_range cfgGoDefaults Of.zero 100000).1 (Or.inr (by decide)),
   (C8_scanInt16_range cfgGoDefaults Of.zero 12345).2 (by decide) (by decide)⟩

/-- Claim C9: Filter propagates Unset to Unset and Null to Null,
returns the container itself (unchanged) when the held value passes the
predicate, and demotes to Null — not Unset — when the value fails it. -/
theorem C9_filter {T : Type} (n : Of T) (p : T → Bool) (v : T) :
    (n.IsUnset = true → (Filter n p).IsUnset = true ∧ Filter n p = Of.zero) ∧
    (n.IsNull = true → (Filter n p).IsNull = true ∧ Filter n p = Null T) ∧
    (n.isSet = true → n.val = some v → p v = true → Filter n p = n) ∧
    (n.isSet = true → n.val = some v → p v = false →
      (Filter n p).IsNull = true ∧ (Filter n p).IsUnset = false ∧
      Filter n p = Null T) := by
  obtain ⟨nval, ns, nmu, nsn⟩ := n
  refine ⟨?_, ?_, ?_, ?_⟩
  · intro h
    simp [Of.IsUnset] at h
    simp [Filter, Of.IsUnset, Of.zero, h]
  · intro h
    simp only [Of.IsNull, Bool.and_eq_true, Option.isNone_iff_eq_none] at h
    obtain ⟨h1, h2⟩ := h
    subst h1
    subst h2
    simp [Filter, Of.IsUnset, Of.IsNull, Null, Of.zero, Of.SetNull]
  · intro hs hv hp
    subst hs
    subst hv
    simp [Filter, Of.IsUnset, Of.IsNull, hp]
  · intro hs hv hp
    subst hs
    subst hv
    simp [Filter, Of.IsUnset, Of.IsNull, hp, Null, Of.zero, Of.SetNull]

/-- Closed witness for claim C9, mirroring Scenario E of the spec:
filtering Value(-5) through isPositive gives Null, not Unset; filtering
an Unset container gives Unset; a passing value is unchanged. -/
theorem C9_filter_witness :
    ((Filter (Of.zero : Of Int) isPositive).IsUnset = true) ∧
    ((Filter (Null Int) isPositive).IsNull = true) ∧
    (Filter (FromValue (5 : Int)) isPositive = FromValue 5) ∧
    ((Filter (FromValue (-5 : Int)) isPositive).IsNull = true) ∧
    ((Filter (FromValue (-5 : Int)) isPositive).IsUnset = false) :=
  ⟨((C9_filter Of.zero isPositive 0).1 (by decide)).1,
   ((C9_filter (Null Int) isPositive 0).2.1 (by decide)).1,
   (C9_filter (FromValue 5) isPositive 5).2.2.1 (by decide) (by decide) (by decide),
   ((C9_filter (FromValue (-5)) isPositive (-5)).2.2.2 (by decide) (by decide)
      (by decide)).1,
   ((C9_filter (FromValue (-5)) isPositive (-5)).2.2.2 (by decide) (by decide)
      (by decide)).2.1⟩

/-- Claim C10: SetValue, SetNull and Unset change only val and isSet;
the per-instance policy overrides marshalUnset and scanNull are
untouched, so an override configured before a transition still
determines the effective policies afterwards. -/
theorem C10_transitions_preserve_overrides {T : Type} (n : Of T) (b : T)
    (cfg : Config) (mb : MarshalUnsetBehavior) (sb : ScanNullBehavior) :
    ((n.SetValue b).marshalUnset = n.marshalUnset) ∧
    ((n.SetValue b).scanNull = n.scanNull) ∧
    ((n.SetValue b).val = some b) ∧ ((n.SetValue b).isSet = true) ∧
    (n.SetNull.marshalUnset = n.marshalUnset) ∧
    (n.SetNull.scanNull = n.scanNull) ∧
    (n.SetNull.val = none) ∧ (n.SetNull.isSet = true) ∧
    (n.Unset.marshalUnset = n.marshalUnset) ∧
    (n.Unset.scanNull = n.scanNull) ∧
    (n.Unset.val = none) ∧ (n.Unset.isSet = false) ∧
    ((n.SetValue b).GetMarshalUnset cfg = n.GetMarshalUnset cfg) ∧
    ((n.SetValue b).GetScanNull cfg = n.GetScanNull cfg) ∧
    (n.SetNull.GetMarshalUnset cfg = n.GetMarshalUnset cfg) ∧
    (n.SetNull.GetScanNull cfg = n.GetScanNull cfg) ∧
    (n.Unset.GetMarshalUnset cfg = n.GetMarshalUnset cfg) ∧
    (n.Unset.GetScanNull cfg = n.GetScanNull cfg) ∧
    (((n.SetMarshalUnset mb).SetValue b).GetMarshalUnset cfg = mb) ∧
    (((n.SetScanNull sb).SetNull).GetScanNull cfg = sb) ∧
    (((n.SetScanNull sb).Unset).GetScanNull cfg = sb) := by
  exact ⟨rfl, rfl, rfl, rfl, rfl, rfl, rfl, rfl, rfl, rfl, rfl, rfl, rfl, rfl,
    rfl, rfl, rfl, rfl, rfl, rfl, rfl⟩

end Presence
